import Mathlib

/-!
Verification of the WellDone blog backend (Express/Mongoose controllers).

The controllers are shallowly embedded: each handler becomes a Lean
function from an explicit store state and the already-parsed request
pieces to a response (and, for mutating handlers, a successor state).
Machine arithmetic in the JS source operates on ordinary numbers, so the
embedding uses `Int`/`Nat` directly.  The document store (Mongoose) is an
external collaborator; its primitives (`find` with skip/limit,
`countDocuments`, `findById`, `findOneAndUpdate`, id assignment on save)
are modelled from the spec as list operations on an explicit state.
-/

namespace WellDone

/-! ## Data model

Mirrors the Mongoose schemas: `Post` (author, title, body, topic,
comment references, date), `Comment` (post reference, email, title,
body), `Topic` (name).  Identifiers are strings (object-id strings). -/

structure Topic where
  tid : String
  name : String
deriving DecidableEq, Repr

structure Comment where
  cid : String
  post : String
  email : String
  title : String
  body : String
deriving DecidableEq, Repr

structure Post where
  pid : String
  author : String
  title : String
  body : String
  topic : String
  comments : List String
  date : Nat
deriving DecidableEq, Repr

/-- The document store state: the three collections used by the
controllers, plus a counter modelling Mongoose id assignment on save. -/
structure Store where
  posts : List Post
  comments : List Comment
  topics : List Topic
  nextId : Nat
deriving DecidableEq, Repr

/-- Modelled from the spec: `mongoose.Types.ObjectId.isValid` on a string —
a well-formed object-identifier string is 24 hexadecimal characters. -/
def isValidObjectId (s : String) : Bool :=
  s.length == 24 && s.data.all (fun c =>
    c.isDigit || ('a' ≤ c && c ≤ 'f') || ('A' ≤ c && c ≤ 'F'))

/-! ## Pagination resolver

From `posts_get` (postController, authenticated variant) and
`comments_get` (commentController).  The `limit` sanitizer is
`if (value < 0 || value > 20) return 0; else return value;` and the
`page` sanitizer is
`if (value < 0 || value > Math.ceil(docCount / MAX_DOCS_PER_FETCH)) return 0; else return --value;`. -/

/-- `Math.ceil(docCount / maxDocs)` for natural inputs. -/
def totalPages (docCount maxDocs : Nat) : Nat :=
  (docCount + maxDocs - 1) / maxDocs

/-- The `limit` query sanitizer of `posts_get`. -/
def posts_effectiveLimit (value : Int) : Int :=
  if value < 0 ∨ value > 20 then 0 else value

/-- The `limit` query sanitizer of `comments_get`. -/
def comments_effectiveLimit (value : Int) : Int :=
  if value < 0 ∨ value > 20 then 0 else value

/-- The `page` query sanitizer of `posts_get`: `docCount` is
`Post.countDocuments()`. -/
def posts_effectivePage (value : Int) (docCount maxDocs : Nat) : Int :=
  if value < 0 ∨ value > (totalPages docCount maxDocs : Int) then 0
  else value - 1

/-- The `page` query sanitizer of `comments_get`: `docCount` is
`Comment.countDocuments with post = postid`. -/
def comments_effectivePage (value : Int) (docCount maxDocs : Nat) : Int :=
  if value < 0 ∨ value > (totalPages docCount maxDocs : Int) then 0
  else value - 1

/-- The skip value a list handler passes to the store query:
`page * MAX_DOCS_PER_FETCH` after sanitization. -/
def resolvedSkip (page : Int) (docCount maxDocs : Nat) : Int :=
  posts_effectivePage page docCount maxDocs * (maxDocs : Int)

/-- The pagination contract exactly as the spec words it (for comparison
with the sanitizer the code implements): `effectivePage = page - 1` if
`0 ≤ page - 1 ≤ totalPages`, else `0`. -/
def spec_effectivePage (value : Int) (docCount maxDocs : Nat) : Int :=
  if 0 ≤ value - 1 ∧ value - 1 ≤ (totalPages docCount maxDocs : Int) then value - 1
  else 0

/-- Modelled from the spec: the store primitive
`find(filter, skip, limit)` — the documents matching the filter, after
skipping `skip` of them and bounding the result by `limit` documents. -/
def storeFind {α : Type} (docs : List α) (skip limit : Int) : List α :=
  (docs.drop skip.toNat).take limit.toNat

/-! ## Post handlers (authenticated variant)

From the authenticated post controller: `post_put` and `post_delete`
first authenticate, then validate, then `Post.findById`; a missing post
yields 404, a post whose `author._id` differs from `req.user._id` yields
403, otherwise the mutation runs. -/

/-- `req.body` of a post PUT: each field optional; Mongoose ignores
`undefined` fields in the update document. -/
structure PostUpdate where
  title : Option String
  body : Option String
  topic : Option String
deriving DecidableEq, Repr

def applyPostUpdate (p : Post) (d : PostUpdate) : Post :=
  { p with
    title := d.title.getD p.title
    body := d.body.getD p.body
    topic := d.topic.getD p.topic }

inductive PostPutResult where
  | badRequest (errors : List String)
  | notFound
  | forbidden
  | ok (p : Post)
deriving DecidableEq, Repr

/-- `post_put` handler body (after `passport.authenticate`): `userId` is
`req.user._id`, `errors` the collected validation errors. -/
def post_put (s : Store) (postid userId : String) (detail : PostUpdate)
    (errors : List String) : PostPutResult × Store :=
  if !errors.isEmpty then (.badRequest errors, s)
  else
    match s.posts.find? (fun p => p.pid == postid) with
    | none => (.notFound, s)
    | some p =>
      if p.author ≠ userId then (.forbidden, s)
      else
        (.ok (applyPostUpdate p detail),
         { s with posts := s.posts.map (fun q =>
             if q.pid == postid then applyPostUpdate q detail else q) })

inductive PostDeleteResult where
  | badRequest (errors : List String)
  | notFound
  | forbidden
  | ok (p : Post)
deriving DecidableEq, Repr

/-- `post_delete` handler body (after `passport.authenticate`). -/
def post_delete (s : Store) (postid userId : String)
    (errors : List String) : PostDeleteResult × Store :=
  if !errors.isEmpty then (.badRequest errors, s)
  else
    match s.posts.find? (fun p => p.pid == postid) with
    | none => (.notFound, s)
    | some p =>
      if p.author ≠ userId then (.forbidden, s)
      else (.ok p, { s with posts := s.posts.filter (fun q => q.pid ≠ postid) })

/-! ## Topic find-or-create

The `topic` body sanitizer of `post_post`: look a Topic up by name; if
absent, save a new Topic with that name and return its id, else return
the existing id.  Mongoose id assignment on save is modelled by the
store's `nextId` counter. -/

def findOrCreateTopic (s : Store) (value : String) : String × Store :=
  match s.topics.find? (fun t => t.name == value) with
  | some t => (t.tid, s)
  | none =>
    let t : Topic := { tid := toString s.nextId, name := value }
    (t.tid, { s with topics := s.topics ++ [t], nextId := s.nextId + 1 })

/-! ## Comment handlers -/

/-- Referential integrity of comments: every stored Comment's post
reference names a stored Post. -/
def refIntegrity (s : Store) : Prop :=
  ∀ c ∈ s.comments, ∃ p ∈ s.posts, p.pid = c.post

instance (s : Store) : Decidable (refIntegrity s) := by
  unfold refIntegrity; infer_instance

inductive CommentsGetResult where
  | badRequest (errors : List String)
  | notFound
  | json (comments : List Comment)
deriving DecidableEq, Repr

/-- The truth value of `allCommentsByPost === undefined` in the
`comments_get` handler: a Mongoose `find` resolves to an array, never to
`undefined`, so the comparison is false for every list value. -/
def jsFindResultIsUndefined (l : List Comment) : Bool := false

/-- `comments_get`: validate `postid` as an object id, sanitize `limit`
and `page` (the page sanitizer re-checks earlier errors and counts the
comments of the post), then `Comment.find with post = postid` with
skip/limit; the dead `=== undefined` branch answers 404. -/
def comments_get (s : Store) (postidRaw : String) (limitParam pageParam : Int)
    (maxDocs : Nat) : CommentsGetResult :=
  let errors : List String :=
    if isValidObjectId postidRaw then [] else ["Post id must be valid"]
  let limit := comments_effectiveLimit limitParam
  let docCount := (s.comments.filter (fun c => c.post == postidRaw)).length
  let page := comments_effectivePage pageParam docCount maxDocs
  if !errors.isEmpty then .badRequest errors
  else
    let allCommentsByPost :=
      storeFind (s.comments.filter (fun c => c.post == postidRaw))
        (page * (maxDocs : Int)) limit
    if jsFindResultIsUndefined allCommentsByPost then .notFound
    else .json allCommentsByPost

/-- `req.body` of a comment POST (all fields required by validation). -/
structure CommentInput where
  email : String
  title : String
  body : String
deriving DecidableEq, Repr

inductive CommentPostResult where
  | badRequest (errors : List String)
  | notFound
  | created (c : Comment)
deriving DecidableEq, Repr

/-- `comment_post` handler body: on empty error set, `Post.findById`;
absent post answers 404 with no write; otherwise the comment is saved
with the given post reference and its id is pushed onto the post's
comments list. -/
def comment_post (s : Store) (postid : String) (input : CommentInput)
    (errors : List String) : CommentPostResult × Store :=
  if !errors.isEmpty then (.badRequest errors, s)
  else
    match s.posts.find? (fun p => p.pid == postid) with
    | none => (.notFound, s)
    | some _ =>
      let newCid := toString s.nextId
      let c : Comment :=
        { cid := newCid, post := postid
          email := input.email, title := input.title, body := input.body }
      (.created c,
       { s with
         comments := s.comments ++ [c]
         posts := s.posts.map (fun p =>
           if p.pid == postid then { p with comments := p.comments ++ [newCid] } else p)
         nextId := s.nextId + 1 })

/-- `req.body` of a comment PUT: each field optional. -/
structure CommentUpdate where
  email : Option String
  title : Option String
  body : Option String
deriving DecidableEq, Repr

def applyCommentUpdate (c : Comment) (d : CommentUpdate) : Comment :=
  { c with
    email := d.email.getD c.email
    title := d.title.getD c.title
    body := d.body.getD c.body }

/-- `Comment.findOneAndUpdate with _id = commentid and post = postid`,
`new: true`: the updated document if one matched, with the successor
store. -/
def findOneAndUpdateComment (s : Store) (commentid postid : String)
    (d : CommentUpdate) : Option Comment × Store :=
  match s.comments.find? (fun c => c.cid == commentid && c.post == postid) with
  | none => (none, s)
  | some c =>
    (some (applyCommentUpdate c d),
     { s with comments := s.comments.map (fun x =>
         if x.cid == commentid && x.post == postid then applyCommentUpdate x d
         else x) })

inductive CommentPutResult where
  | badRequest (errors : List String)
  | notFound
  | ok (c : Comment)
deriving DecidableEq, Repr

/-- The truth value of the `comment_put` guard `!errors.array()`: in
JavaScript `validationResult(req).array()` returns an array object, and
`!` of any object — the empty array included — is `false`. -/
def jsNotErrorsArray (errors : List String) : Bool := false

/-- `comment_put` handler body, guard included as written in the source:
`if (!errors.array())` answers 400, else `findOneAndUpdate` runs and its
absence answers 404. -/
def comment_put (s : Store) (postid commentid : String) (detail : CommentUpdate)
    (errors : List String) : CommentPutResult × Store :=
  if jsNotErrorsArray errors then (.badRequest errors, s)
  else
    match findOneAndUpdateComment s commentid postid detail with
    | (none, s1) => (.notFound, s1)
    | (some c, s1) => (.ok c, s1)

/-! ## Post listing (authenticated variant)

`posts_get`: the optional `topic` query value is sanitized to a Topic id
(lookup by name, else the raw value when it is a well-formed object id,
else no value); `queryOpts` gains a `topic`/`author` entry only when the
corresponding query value is truthy. -/

/-- The `topic` query sanitizer of `posts_get` (applied to the trimmed,
escaped value): `Topic.findOne by name`, else the value itself when
`ObjectId.isValid`, else no value (the sanitizer returns `undefined`). -/
def sanitizeTopic (s : Store) (value : String) : Option String :=
  match s.topics.find? (fun t => t.name == value) with
  | some t => some t.tid
  | none => if isValidObjectId value then some value else none

/-- JavaScript truthiness of an optional string query value:
`undefined` and the empty string are falsy. -/
def jsTruthyOpt : Option String → Bool
  | none => false
  | some v => v ≠ ""

/-- The `queryOpts` filter of `posts_get`: `topic` and `author` entries
are added only when the corresponding value is truthy. -/
def postQueryFilter (topicVal useridVal : Option String) (p : Post) : Bool :=
  (match topicVal with
   | some t => if t ≠ "" then p.topic == t else true
   | none => true)
  && (match useridVal with
      | some u => if u ≠ "" then p.author == u else true
      | none => true)

inductive PostsGetResult where
  | badRequest (errors : List String)
  | json (posts : List Post)
deriving DecidableEq, Repr

/-- `posts_get`: sanitize `limit` and `page` (against
`Post.countDocuments()`), sanitize the optional `topic`, then
`Post.find(queryOpts)` with skip/limit, sorted by date descending.
Integer `limit`/`page` parameters satisfy the `isInt` validators, the
only validators of this chain, so the error set stays empty. -/
def posts_get (s : Store) (topicParam useridParam : Option String)
    (limitParam pageParam : Int) (maxDocs : Nat) : PostsGetResult :=
  let errors : List String := []
  let limit := posts_effectiveLimit limitParam
  let docCount := s.posts.length
  let page := posts_effectivePage pageParam docCount maxDocs
  let topicVal := topicParam.bind (fun v => sanitizeTopic s v)
  if !errors.isEmpty then .badRequest errors
  else
    .json (storeFind
      (((s.posts.filter (postQueryFilter topicVal useridParam)).mergeSort
          (fun a b => Nat.ble b.date a.date)))
      (page * (maxDocs : Int)) limit)

/-! ## Sample documents and stores used by witnesses -/

def post1 : Post :=
  { pid := "p1", author := "u1", title := "A sample post"
    body := "body", topic := "t9", comments := [], date := 3 }

def store1 : Store :=
  { posts := [post1], comments := [], topics := [], nextId := 11 }

def emptyStore : Store :=
  { posts := [], comments := [], topics := [], nextId := 0 }

def noUpdate : PostUpdate := { title := none, body := none, topic := none }

/-! ## Pagination theorems -/

/-- C2 counterexample: at `page = 0` (with zero documents and page size
10) the sanitizer the code implements yields `-1`, while the claim's
formula (`page - 1` when `0 ≤ page - 1 ≤ totalPages`, else `0`) yields
`0`; `-1` also lies outside every interval of the form `[0, ·)`, so the
resolved index does not degrade to page 0.  The comment-listing
sanitizer misbehaves identically. -/
theorem comments_page_zero_counterexample :
    posts_effectivePage 0 0 10 = -1
    ∧ comments_effectivePage 0 0 10 = -1
    ∧ spec_effectivePage 0 0 10 = 0
    ∧ posts_effectivePage 0 0 10 < 0 := by decide

/-- C2 amended: the sanitizer computes `page - 1` when
`0 ≤ page ≤ totalPages` (the guard tests `page`, not `page - 1`) and `0`
otherwise; hence for every `page ≥ 1` the resolved index lies in
`[0, max(totalPages, 1))` and a page beyond the last degrades to page 0,
while `page = 0` resolves to `-1`; the post-listing and comment-listing
sanitizers agree on all inputs. -/
theorem effectivePage_amended (page : Int) (docCount maxDocs : Nat)
    (hm : 0 < maxDocs) (hp : 1 ≤ page) :
    posts_effectivePage page docCount maxDocs
      = comments_effectivePage page docCount maxDocs
    ∧ posts_effectivePage page docCount maxDocs
      = (if page ≤ (totalPages docCount maxDocs : Int) then page - 1 else 0)
    ∧ 0 ≤ posts_effectivePage page docCount maxDocs
    ∧ posts_effectivePage page docCount maxDocs
      < max (totalPages docCount maxDocs : Int) 1
    ∧ posts_effectivePage 0 docCount maxDocs = -1 := by
  have ht : (0 : Int) ≤ (totalPages docCount maxDocs : Int) :=
    Int.natCast_nonneg _
  refine ⟨rfl, ?_, ?_, ?_, ?_⟩ <;> unfold posts_effectivePage <;>
    split_ifs with h1 <;> omega

/-- C2 amended, witness: `page = 3` with 25 documents and page size 10
(`totalPages = 3`) resolves to index 2. -/
theorem effectivePage_amended_witness :
    posts_effectivePage 3 25 10 = comments_effectivePage 3 25 10
    ∧ posts_effectivePage 3 25 10
      = (if (3 : Int) ≤ (totalPages 25 10 : Int) then 3 - 1 else 0)
    ∧ 0 ≤ posts_effectivePage 3 25 10
    ∧ posts_effectivePage 3 25 10 < max (totalPages 25 10 : Int) 1
    ∧ posts_effectivePage 0 25 10 = -1 :=
  effectivePage_amended 3 25 10 (by norm_num) (by norm_num)

/-- C5: for every `page ≥ 1`, `limit ∈ [0, 20]` and document count, the
skip value the list handlers pass to the store query — the sanitized
page index times the configured page size — is nonnegative and below
`docCount + maxDocs`. -/
theorem resolvedSkip_bounds (page limit : Int) (docCount maxDocs : Nat)
    (hp : 1 ≤ page) (hl : 0 ≤ limit ∧ limit ≤ 20) (hm : 1 ≤ maxDocs) :
    0 ≤ resolvedSkip page docCount maxDocs
    ∧ resolvedSkip page docCount maxDocs < (docCount : Int) + (maxDocs : Int) := by
  have h1 : totalPages docCount maxDocs * maxDocs ≤ docCount + maxDocs - 1 :=
    Nat.div_mul_le_self _ _
  have h1i : (totalPages docCount maxDocs : Int) * (maxDocs : Int)
      ≤ (docCount : Int) + (maxDocs : Int) - 1 := by
    have hc : ((totalPages docCount maxDocs * maxDocs : Nat) : Int)
        ≤ ((docCount + maxDocs - 1 : Nat) : Int) := Int.ofNat_le.mpr h1
    push_cast at hc
    omega
  unfold resolvedSkip posts_effectivePage
  split_ifs with h
  · constructor
    · simp
    · have : (0 : Int) < (maxDocs : Int) := by exact_mod_cast hm
      simp
      omega
  · push_neg at h
    obtain ⟨h0, h2⟩ := h
    have hmn : (0 : Int) ≤ (maxDocs : Int) := Int.natCast_nonneg _
    constructor
    · exact mul_nonneg (by omega) hmn
    · have hstep : (page - 1) * (maxDocs : Int)
          ≤ ((totalPages docCount maxDocs : Int) - 1) * (maxDocs : Int) :=
        mul_le_mul_of_nonneg_right (by omega) hmn
      have hexp : ((totalPages docCount maxDocs : Int) - 1) * (maxDocs : Int)
          = (totalPages docCount maxDocs : Int) * (maxDocs : Int) - (maxDocs : Int) := by
        ring
      have hmi : (1 : Int) ≤ (maxDocs : Int) := by exact_mod_cast hm
      linarith

/-- C5 witness: `page = 3`, `limit = 10`, 25 documents, page size 10
gives skip 20, inside `[0, 35)`. -/
theorem resolvedSkip_bounds_witness :
    0 ≤ resolvedSkip 3 25 10
    ∧ resolvedSkip 3 25 10 < ((25 : Nat) : Int) + ((10 : Nat) : Int) :=
  resolvedSkip_bounds 3 10 25 10 (by norm_num) ⟨by norm_num, by norm_num⟩
    (by norm_num)

/-- C6: a `limit` outside `[0, 20]` is sanitized to `0` (and a query
bounded by limit 0 yields the empty result set, not an error), while a
`limit` inside `[0, 20]` is used as given; both list endpoints behave
identically. -/
theorem effectiveLimit_clamp (limit : Int) (docs : List Comment) (skip : Int) :
    ((limit < 0 ∨ limit > 20) →
      posts_effectiveLimit limit = 0
      ∧ comments_effectiveLimit limit = 0
      ∧ storeFind docs skip (comments_effectiveLimit limit) = [])
    ∧ (0 ≤ limit → limit ≤ 20 →
      posts_effectiveLimit limit = limit
      ∧ comments_effectiveLimit limit = limit) := by
  constructor
  · intro h
    refine ⟨?_, ?_, ?_⟩
    · simp only [posts_effectiveLimit]
      rw [if_pos h]
    · simp only [comments_effectiveLimit]
      rw [if_pos h]
    · simp only [comments_effectiveLimit]
      rw [if_pos h]
      simp [storeFind]
  · intro h0 h20
    have hn : ¬(limit < 0 ∨ limit > 20) := by omega
    constructor
    · simp only [posts_effectiveLimit]
      rw [if_neg hn]
    · simp only [comments_effectiveLimit]
      rw [if_neg hn]

/-- C6 witness: limit 21 resolves to 0 with an empty result; limit 5 is
kept. -/
theorem effectiveLimit_clamp_witness :
    (posts_effectiveLimit 21 = 0
      ∧ comments_effectiveLimit 21 = 0
      ∧ storeFind ([] : List Comment) 0 (comments_effectiveLimit 21) = [])
    ∧ (posts_effectiveLimit 5 = 5 ∧ comments_effectiveLimit 5 = 5) :=
  ⟨(effectiveLimit_clamp 21 [] 0).1 (Or.inr (by norm_num)),
   (effectiveLimit_clamp 5 [] 0).2 (by norm_num) (by norm_num)⟩

/-! ## Validation gating -/

/-- C1: the comment update handler's validation gate is broken.  Its
guard reads `if (!errors.array())`, and `errors.array()` is an array
object, which is truthy in JavaScript even when empty, so the guard is
never taken: with a nonempty validation error list (here a failed email
rule) `comment_put` still executes the domain update — the store
changes and the response is the updated comment, not a 400 error
response carrying the error list.  Every sibling handler tests
`errors.isEmpty()` instead and does gate the domain operation. -/
theorem comment_put_runs_domain_op_despite_errors :
    (comment_put
      { posts := [], nextId := 0, topics := []
        comments := [{ cid := "c1", post := "p1", email := "a@b.c"
                       title := "old title", body := "0123456789" }] }
      "p1" "c1"
      { email := none, title := some "new title", body := none }
      ["Email must have correct format"]).1
      = CommentPutResult.ok
          { cid := "c1", post := "p1", email := "a@b.c"
            title := "new title", body := "0123456789" }
    ∧ (comment_put
        { posts := [], nextId := 0, topics := []
          comments := [{ cid := "c1", post := "p1", email := "a@b.c"
                         title := "old title", body := "0123456789" }] }
        "p1" "c1"
        { email := none, title := some "new title", body := none }
        ["Email must have correct format"]).2
      ≠ { posts := [], nextId := 0, topics := []
          comments := [{ cid := "c1", post := "p1", email := "a@b.c"
                         title := "old title", body := "0123456789" }] } := by
  decide

/-! ## Existence and ownership ordering -/

/-- C3: for post update and delete with an empty validation error set,
a missing post answers 404 whoever the principal is, and an existing
post whose author differs from the principal answers 403 — existence is
decided before ownership. -/
theorem post_mutation_existence_before_ownership (s : Store)
    (postid userId : String) (detail : PostUpdate) :
    (s.posts.find? (fun p => p.pid == postid) = none →
      (post_put s postid userId detail []).1 = PostPutResult.notFound
      ∧ (post_delete s postid userId []).1 = PostDeleteResult.notFound)
    ∧ (∀ p, s.posts.find? (fun q => q.pid == postid) = some p →
        p.author ≠ userId →
        (post_put s postid userId detail []).1 = PostPutResult.forbidden
        ∧ (post_delete s postid userId []).1 = PostDeleteResult.forbidden) := by
  constructor
  · intro h
    constructor <;> simp [post_put, post_delete, h]
  · intro p hp hne
    constructor <;> simp [post_put, post_delete, hp, hne]

/-- C3 witness: a well-formed id naming no post answers 404 for both
operations regardless of principal; `post1` owned by `u1` answers 403
to principal `u2`. -/
theorem post_mutation_ordering_witness :
    ((post_put emptyStore "aaaaaaaaaaaaaaaaaaaaaaaa" "u2" noUpdate []).1
        = PostPutResult.notFound
      ∧ (post_delete emptyStore "aaaaaaaaaaaaaaaaaaaaaaaa" "u2" []).1
        = PostDeleteResult.notFound)
    ∧ ((post_put store1 "p1" "u2" noUpdate []).1 = PostPutResult.forbidden
      ∧ (post_delete store1 "p1" "u2" []).1 = PostDeleteResult.forbidden) :=
  ⟨(post_mutation_existence_before_ownership emptyStore
      "aaaaaaaaaaaaaaaaaaaaaaaa" "u2" noUpdate).1 (by decide),
   (post_mutation_existence_before_ownership store1 "p1" "u2" noUpdate).2
      post1 (by decide) (by decide)⟩

/-- C4: a PUT on an existing post by an authenticated principal other
than its author answers 403 and returns the store unchanged — no field
of any stored post is modified. -/
theorem post_put_forbidden_frame (s : Store) (postid userId : String)
    (detail : PostUpdate) (p : Post)
    (hp : s.posts.find? (fun q => q.pid == postid) = some p)
    (hne : p.author ≠ userId) :
    post_put s postid userId detail [] = (PostPutResult.forbidden, s) := by
  simp [post_put, hp, hne]

/-- C4 witness: `post1` (author `u1`) is left untouched by a PUT from
`u2`. -/
theorem post_put_forbidden_frame_witness :
    post_put store1 "p1" "u2" noUpdate [] = (PostPutResult.forbidden, store1) :=
  post_put_forbidden_frame store1 "p1" "u2" noUpdate post1 (by decide)
    (by decide)

/-! ## Topic deduplication -/

/-- C7: the topic find-or-create sanitizer returns an existing Topic's
id unchanged without touching the store, creates a Topic with exactly
the requested name otherwise, and running it twice sequentially with
the same name yields the same identifier (and the same store) both
times. -/
theorem findOrCreateTopic_idempotent (s : Store) (name : String) :
    (∀ t, s.topics.find? (fun x => x.name == name) = some t →
      findOrCreateTopic s name = (t.tid, s))
    ∧ (s.topics.find? (fun x => x.name == name) = none →
      (findOrCreateTopic s name).2.topics
        = s.topics ++ [{ tid := (findOrCreateTopic s name).1, name := name }])
    ∧ findOrCreateTopic (findOrCreateTopic s name).2 name
        = ((findOrCreateTopic s name).1, (findOrCreateTopic s name).2) := by
  refine ⟨?_, ?_, ?_⟩
  · intro t ht
    simp [findOrCreateTopic, ht]
  · intro h
    simp [findOrCreateTopic, h]
  · rcases hf : s.topics.find? (fun x => x.name == name) with _ | t
    · have h2 : ((findOrCreateTopic s name).2).topics.find?
          (fun x => x.name == name)
          = some { tid := toString s.nextId, name := name } := by
        simp only [findOrCreateTopic, hf]
        rw [List.find?_append, hf]
        simp
      simp only [findOrCreateTopic, hf]
      simp only [findOrCreateTopic] at h2
      simp only [hf] at h2
      simp [h2]
    · simp [findOrCreateTopic, hf]

/-- C7 witness: on a store holding Topic `t9` named `news`, looking up
`news` returns `t9` and changes nothing; on a store without `fresh`,
find-or-create appends exactly one Topic named `fresh` with the
returned id. -/
theorem findOrCreateTopic_witness :
    findOrCreateTopic
        { posts := [], comments := [], nextId := 4
          topics := [{ tid := "t9", name := "news" }] } "news"
      = ("t9", { posts := [], comments := [], nextId := 4
                 topics := [{ tid := "t9", name := "news" }] })
    ∧ (findOrCreateTopic store1 "fresh").2.topics
      = store1.topics
        ++ [{ tid := (findOrCreateTopic store1 "fresh").1, name := "fresh" }] :=
  ⟨(findOrCreateTopic_idempotent
      { posts := [], comments := [], nextId := 4
        topics := [{ tid := "t9", name := "news" }] } "news").1
      { tid := "t9", name := "news" } (by decide),
   (findOrCreateTopic_idempotent store1 "fresh").2.1 (by decide)⟩

/-! ## Comment listing and creation -/

/-- C8: a GET on the comment list of a well-formed post id that names
no stored Post (in a store whose comments all reference stored posts)
answers 200 with the empty list; and no `comments_get` request at all
can answer 404 — the handler's 404 branch compares a query result array
to `undefined`, which never holds. -/
theorem comments_get_absent_post (s : Store) (pidRaw : String)
    (limitP pageP : Int) (maxDocs : Nat)
    (hvalid : isValidObjectId pidRaw = true)
    (habsent : s.posts.find? (fun p => p.pid == pidRaw) = none)
    (hinv : refIntegrity s) :
    comments_get s pidRaw limitP pageP maxDocs = CommentsGetResult.json []
    ∧ ∀ (s2 : Store) (pid2 : String) (l2 p2 : Int) (m2 : Nat),
        comments_get s2 pid2 l2 p2 m2 ≠ CommentsGetResult.notFound := by
  have hfil : s.comments.filter (fun c => c.post == pidRaw) = [] := by
    rw [List.filter_eq_nil_iff]
    intro c hc hcp
    obtain ⟨p, hpmem, hpid⟩ := hinv c hc
    have hne := List.find?_eq_none.mp habsent p hpmem
    apply hne
    rw [hpid]
    exact hcp
  constructor
  · simp [comments_get, hvalid, hfil, storeFind, jsFindResultIsUndefined]
  · intro s2 pid2 l2 p2 m2
    simp only [comments_get, jsFindResultIsUndefined]
    split_ifs <;> simp_all

/-- C8 witness: `store1` holds one post (`p1`) and no comments; the id
of 24 letters `a` is well-formed and absent, and the listing answers
the empty list. -/
theorem comments_get_absent_post_witness :
    comments_get store1 "aaaaaaaaaaaaaaaaaaaaaaaa" 10 1 10
      = CommentsGetResult.json []
    ∧ ∀ (s2 : Store) (pid2 : String) (l2 p2 : Int) (m2 : Nat),
        comments_get s2 pid2 l2 p2 m2 ≠ CommentsGetResult.notFound :=
  comments_get_absent_post store1 "aaaaaaaaaaaaaaaaaaaaaaaa" 10 1 10
    (by decide) (by decide) (by decide)

/-- C9: comment creation preserves comment-to-post referential
integrity: with a clean validation run, an absent referenced post
answers 404 and writes nothing; an existing one gets the new comment
stored with the given post reference and the new comment's id appended
to the post's comments list; and a store whose comments all reference
stored posts still has that property after the handler runs. -/
theorem comment_post_preserves_refIntegrity (s : Store) (postid : String)
    (input : CommentInput) :
    (s.posts.find? (fun p => p.pid == postid) = none →
      comment_post s postid input [] = (CommentPostResult.notFound, s))
    ∧ (∀ p, s.posts.find? (fun q => q.pid == postid) = some p →
        (comment_post s postid input []).1
          = CommentPostResult.created
              { cid := toString s.nextId, post := postid
                email := input.email, title := input.title, body := input.body }
        ∧ (comment_post s postid input []).2.comments
          = s.comments
            ++ [{ cid := toString s.nextId, post := postid
                  email := input.email, title := input.title
                  body := input.body }]
        ∧ { p with comments := p.comments ++ [toString s.nextId] }
            ∈ (comment_post s postid input []).2.posts)
    ∧ (refIntegrity s → refIntegrity (comment_post s postid input []).2) := by
  refine ⟨?_, ?_, ?_⟩
  · intro h
    simp [comment_post, h]
  · intro p hp
    have hmem : p ∈ s.posts := List.mem_of_find?_eq_some hp
    have hpid : (p.pid == postid) = true := by
      simpa using List.find?_some hp
    refine ⟨?_, ?_, ?_⟩
    · simp [comment_post, hp]
    · simp [comment_post, hp]
    · simp only [comment_post, hp, List.isEmpty_nil, Bool.not_false,
        Bool.false_eq_true, if_false]
      have hmm := List.mem_map_of_mem
        (fun q : Post => if q.pid == postid
          then { q with comments := q.comments ++ [toString s.nextId] } else q)
        hmem
      simpa [hpid] using hmm
  · intro hinv
    rcases hf : s.posts.find? (fun p => p.pid == postid) with _ | p
    · simp only [comment_post, hf, List.isEmpty_nil, Bool.not_false,
        Bool.false_eq_true, if_false]
      exact hinv
    · have hpmem : p ∈ s.posts := List.mem_of_find?_eq_some hf
      have hppid : (p.pid == postid) = true := by
        simpa using List.find?_some hf
      intro c hc
      simp only [comment_post, hf, List.isEmpty_nil, Bool.not_false,
        Bool.false_eq_true, if_false] at hc ⊢
      have hpres : ∀ q : Post,
          ((fun q : Post => if q.pid == postid
              then { q with comments := q.comments ++ [toString s.nextId] }
              else q) q).pid = q.pid := by
        intro q
        by_cases hq : (q.pid == postid) = true <;> simp [hq]
      rcases List.mem_append.mp hc with hcl | hcr
      · obtain ⟨q, hqmem, hqid⟩ := hinv c hcl
        refine ⟨_, List.mem_map_of_mem _ hqmem, ?_⟩
        rw [hpres q]
        exact hqid
      · have hceq : c = { cid := toString s.nextId, post := postid
                          email := input.email, title := input.title
                          body := input.body } := by
          simpa using hcr
        refine ⟨_, List.mem_map_of_mem _ hpmem, ?_⟩
        rw [hpres p, hceq]
        exact eq_of_beq hppid

/-- C9 witness: posting a comment on the absent post of an empty store
answers 404 with the store unchanged; posting on `p1` of `store1`
stores the comment with post reference `p1` and appends its id `11` to
the post's comments. -/
theorem comment_post_witness :
    comment_post emptyStore "p1"
        { email := "a@b.c", title := "ttt", body := "0123456789" } []
      = (CommentPostResult.notFound, emptyStore)
    ∧ ((comment_post store1 "p1"
          { email := "a@b.c", title := "ttt", body := "0123456789" } []).1
        = CommentPostResult.created
            { cid := toString store1.nextId, post := "p1", email := "a@b.c"
              title := "ttt", body := "0123456789" }
      ∧ (comment_post store1 "p1"
          { email := "a@b.c", title := "ttt", body := "0123456789" } []).2.comments
        = store1.comments
          ++ [{ cid := toString store1.nextId, post := "p1", email := "a@b.c"
                title := "ttt", body := "0123456789" }]
      ∧ { post1 with comments := post1.comments ++ [toString store1.nextId] }
          ∈ (comment_post store1 "p1"
              { email := "a@b.c", title := "ttt", body := "0123456789" } []).2.posts)
    ∧ refIntegrity (comment_post store1 "p1"
        { email := "a@b.c", title := "ttt", body := "0123456789" } []).2 :=
  ⟨(comment_post_preserves_refIntegrity emptyStore "p1"
      { email := "a@b.c", title := "ttt", body := "0123456789" }).1 (by decide),
   (comment_post_preserves_refIntegrity store1 "p1"
      { email := "a@b.c", title := "ttt", body := "0123456789" }).2.1
      post1 (by decide),
   (comment_post_preserves_refIntegrity store1 "p1"
      { email := "a@b.c", title := "ttt", body := "0123456789" }).2.2
      (by decide)⟩

/-! ## Topic filter omission -/

/-- C10: a `topic` query value that matches no stored Topic name and is
not a well-formed object-identifier string sanitizes to no value, so the
topic entry is left out of `queryOpts` and the post listing equals the
one produced by the same request without a topic parameter — the
unfiltered list, not an empty list or an error. -/
theorem posts_get_unknown_topic_unfiltered (s : Store) (v : String)
    (useridParam : Option String) (limitP pageP : Int) (maxDocs : Nat)
    (hname : s.topics.find? (fun t => t.name == v) = none)
    (hid : isValidObjectId v = false) :
    sanitizeTopic s v = none
    ∧ posts_get s (some v) useridParam limitP pageP maxDocs
      = posts_get s none useridParam limitP pageP maxDocs := by
  have h1 : sanitizeTopic s v = none := by
    simp [sanitizeTopic, hname, hid]
  exact ⟨h1, by simp [posts_get, h1]⟩

/-- C10 witness: `nosuchtopic` names no Topic of `store1` and is not a
well-formed id; listing with it equals listing without a topic
parameter. -/
theorem posts_get_unknown_topic_witness :
    sanitizeTopic store1 "nosuchtopic" = none
    ∧ posts_get store1 (some "nosuchtopic") none 10 1 10
      = posts_get store1 none none 10 1 10 :=
  posts_get_unknown_topic_unfiltered store1 "nosuchtopic" none 10 1 10
    (by decide) (by decide)

end WellDone
